import Mathlib

/-!
Shallow embedding of src/main.py (TidbytBitcoinTracker), a Bitcoin price
tracker that fetches a price from the CoinDesk API with a 4-minute cache,
renders a Starlark payload through the pixlet render endpoint, and pushes
the rendered image to a Tidbyt device, in a continuous update loop.

Modelling conventions:
- Timestamps (datetime.now()) are rationals measured in seconds, so the
  4-minute cache TTL (timedelta(minutes=4)) is the rational 240.
- Prices (Python floats parsed from JSON) are rationals.
- Response bodies are modelled per call site: the fetch response carries
  the value found at the JSON path bpi.USD.rate_float when the body parses
  and the path holds a number (none when response.json() or the path
  lookup raises, which the except in get_bitcoin_price swallows); the
  render response carries raw bytes (a list of naturals below 256); the
  push response carries its text body.
- Each requests call may instead raise a network exception, modelled by
  the networkError constructor; the surrounding try blocks in the Python
  turn it into a None / False result.
- Prints are modelled as an append-only list of LogEvent values, one
  constructor per print statement in the source.
-/

namespace Tidbyt

/-- Mutable fields of TidbytBitcoinTracker relevant to caching:
last_price and last_update, both initialised to None in __init__. -/
structure TrackerState where
  last_price : Option ℚ
  last_update : Option ℚ
deriving DecidableEq, Repr

/-- Initial state from __init__: last_price = None, last_update = None. -/
def initState : TrackerState := { last_price := none, last_update := none }

/-- cache_ttl = timedelta(minutes=4), measured in seconds. -/
def cache_ttl : ℚ := 240

/-- Outcome of one requests.get / requests.post call: either the transport
raises (networkError) or an HTTP response with a status code and a body
arrives. -/
inductive HttpResp (α : Type) where
  | networkError : HttpResp α
  | response (status : ℕ) (body : α) : HttpResp α
deriving DecidableEq, Repr

/-- One constructor per print statement in src/main.py, carrying the data
interpolated into the message. -/
inductive LogEvent where
  | usingCachedPrice
  | fetchedNewPrice (price : ℚ)
  | fetchBadStatus (status : ℕ)
  | fetchException
  | renderBadStatus (status : ℕ)
  | renderException
  | pushSuccess
  | pushBadStatus (status : ℕ) (body : String)
  | pushException
  | willRetry
  | stopping
  | unexpectedError
deriving DecidableEq, Repr

/-- Result of get_bitcoin_price: the Optional[float] return value, the
tracker state after the call, whether the CoinDesk HTTP request was
issued, and what was printed. -/
structure FetchResult where
  price : Option ℚ
  state : TrackerState
  fetchInvoked : Bool
  log : List LogEvent
deriving DecidableEq, Repr

/-- The cache-validity test at the top of get_bitcoin_price:
last_price is not None and last_update is not None and
now - last_update < cache_ttl. -/
def cacheValid (s : TrackerState) (now : ℚ) : Bool :=
  s.last_price.isSome &&
    (match s.last_update with
     | some t => decide (now - t < cache_ttl)
     | none => false)

/-- get_bitcoin_price (src/main.py lines 35-60): return the cached price
when the cache is valid; otherwise GET the CoinDesk endpoint. On status
200 the value at bpi.USD.rate_float is stored in last_price/last_update
and returned; a non-200 status prints the status and returns None; any
exception (transport failure, or a body where response.json() or the
path lookup raises, modelled as body = none) prints and returns None.
In the non-cached failure branches the state is left untouched. -/
def get_bitcoin_price (s : TrackerState) (now : ℚ) (resp : HttpResp (Option ℚ)) :
    FetchResult :=
  if cacheValid s now then
    { price := s.last_price, state := s, fetchInvoked := false,
      log := [LogEvent.usingCachedPrice] }
  else
    match resp with
    | HttpResp.networkError =>
        { price := none, state := s, fetchInvoked := true,
          log := [LogEvent.fetchException] }
    | HttpResp.response st b =>
        if st = 200 then
          match b with
          | some p =>
              { price := some p,
                state := { last_price := some p, last_update := some now },
                fetchInvoked := true,
                log := [LogEvent.fetchedNewPrice p] }
          | none =>
              { price := none, state := s, fetchInvoked := true,
                log := [LogEvent.fetchException] }
        else
          { price := none, state := s, fetchInvoked := true,
            log := [LogEvent.fetchBadStatus st] }

example :
    (get_bitcoin_price { last_price := some 5, last_update := some 0 } 100
      HttpResp.networkError).price = some 5 := by
  norm_num [get_bitcoin_price, cacheValid, cache_ttl]

example :
    (get_bitcoin_price { last_price := some 5, last_update := some 0 } 240
      HttpResp.networkError).fetchInvoked = true := by
  norm_num [get_bitcoin_price, cacheValid, cache_ttl]

example :
    (get_bitcoin_price initState 0 (HttpResp.response 200 (some 67890))).state
      = { last_price := some 67890, last_update := some 0 } := by rfl

/-- Python int() applied to a number: truncation toward zero
(floor for nonnegative arguments, ceiling for negative ones). -/
def pyInt (q : ℚ) : ℤ := if 0 ≤ q then ⌊q⌋ else ⌈q⌉

/-- The argument passed to render.Text in the Starlark template: the
f-string fragment is a literal dollar sign followed by the interpolation
of int(price). -/
def renderTextLabel (price : ℚ) : String := "$" ++ toString (pyInt price)

/-- The BTC_ICON class attribute: a triple-quoted literal whose content is
a leading newline, four base64 lines each indented by four spaces, and a
trailing newline plus four spaces of indentation. -/
def BTC_ICON : String :=
  "\n    iVBORw0KGgoAAAANSUhEUgAAABEAAAARCAYAAAA7bUf6AAAAlklEQVQ4T2NkwAH+H2T/jy7FaP+" ++
  "\n    TEZtyDEG4Zi0TTPXXzoDF0A1DMQRsADbN6MZdO4NiENwQbAbERh1lWLzMmgFGo5iFZBDYEFwuwG" ++
  "\n    sISCPUIKyGgDRjAyBXYXMNIz5XgDQga8TpLboYgux8DO/AwoUuLiEqTLBFMcmxQ7V0gssgklIsL" ++
  "\n    AYozjsoBoE45OZi5DRBSnkCAMLhlPBiQGHlAAAAAElFTkSuQmCC\n    "

/-- Everything of the render_code f-string before the render.Text label
(the load statements, the decoded icon constant, and the layout up to the
opening quote of the text argument). -/
def renderCodeBeforeLabel : String :=
  "\nload(\"render.star\", \"render\")\nload(\"encoding/base64.star\", \"base64\")\n\n" ++
  "BTC_ICON = base64.decode(\"\"\"" ++ BTC_ICON ++ "\"\"\")\n\n" ++
  "def main():\n    return render.Root(\n        child = render.Box(\n" ++
  "            render.Row(\n                expanded=True,\n" ++
  "                main_align=\"space_evenly\",\n                cross_align=\"center\",\n" ++
  "                children = [\n                    render.Image(src=BTC_ICON),\n" ++
  "                    render.Text(\""

/-- Everything of the render_code f-string after the render.Text label. -/
def renderCodeAfterLabel : String :=
  "\"),\n                ],\n            ),\n        ),\n    )\n"

/-- The full Starlark source posted to https://pixlet.tidbyt.com/render:
the f-string of create_webp with int(price) interpolated. -/
def render_code (price : ℚ) : String :=
  renderCodeBeforeLabel ++ renderTextLabel price ++ renderCodeAfterLabel

/-- The base64 alphabet used by base64.b64encode. -/
def base64Alphabet : String :=
  "ABCDEFGHIJKLMNOPQRSTUVWXYZabcdefghijklmnopqrstuvwxyz0123456789+/"

/-- Character of the base64 alphabet at a given 6-bit index. -/
def b64Char (n : ℕ) : Char := base64Alphabet.toList.getD n 'A'

/-- Standard base64 encoding (RFC 4648) of a byte sequence, as performed
by base64.b64encode followed by an ASCII decode; bytes are naturals below
256. -/
def base64Encode : List ℕ → String
  | [] => ""
  | [a] =>
      String.mk [b64Char (a / 4), b64Char (a % 4 * 16), '=', '=']
  | [a, b] =>
      String.mk [b64Char (a / 4), b64Char (a % 4 * 16 + b / 16), b64Char (b % 16 * 4), '=']
  | a :: b :: c :: rest =>
      String.mk [b64Char (a / 4), b64Char (a % 4 * 16 + b / 16),
        b64Char (b % 16 * 4 + c / 64), b64Char (c % 64)] ++ base64Encode rest

/-- The HTTP request that push_to_tidbyt assembles: the device-specific
URL, the Authorization and Content-Type headers, and the three fields of
the JSON body (image, installation_id, background). -/
structure PushRequest where
  url : String
  authHeader : String
  contentType : String
  image : String
  installation_id : String
  background : Bool
deriving DecidableEq, Repr

/-- TIDBYT_API_URL with the device id substituted by str.format. -/
def TIDBYT_API_URL (device_id : String) : String :=
  "https://api.tidbyt.com/v0/devices/" ++ device_id ++ "/push"

/-- Assembly of the push request from the WebP bytes: headers
Authorization: Bearer plus the api key and Content-Type: application/json,
body fields image = base64 of the bytes, installation_id =
bitcoin-tracker, background = True. -/
def buildPushRequest (device_id api_key : String) (webp : List ℕ) : PushRequest :=
  { url := TIDBYT_API_URL device_id
    authHeader := "Bearer " ++ api_key
    contentType := "application/json"
    image := base64Encode webp
    installation_id := "bitcoin-tracker"
    background := true }

/-- Result of create_webp: the Optional[bytes] return value, the tracker
state afterwards, the render request body when one was posted (none when
the fetch failed and the render endpoint was never contacted), whether
the price fetch hit the network, and the accumulated prints. -/
structure RenderResult where
  webp : Option (List ℕ)
  state : TrackerState
  renderRequest : Option String
  fetchInvoked : Bool
  log : List LogEvent
deriving DecidableEq, Repr

/-- create_webp (src/main.py lines 62-104): obtain a price via
get_bitcoin_price; on None, return None without contacting the render
endpoint. Otherwise POST render_code to the pixlet endpoint: a non-200
status prints it and returns None, an exception prints and returns None,
and on 200 the response body is returned unmodified (even when empty). -/
def create_webp (s : TrackerState) (now : ℚ) (fresp : HttpResp (Option ℚ))
    (rresp : HttpResp (List ℕ)) : RenderResult :=
  let f := get_bitcoin_price s now fresp
  match f.price with
  | none =>
      { webp := none, state := f.state, renderRequest := none,
        fetchInvoked := f.fetchInvoked, log := f.log }
  | some p =>
      match rresp with
      | HttpResp.networkError =>
          { webp := none, state := f.state, renderRequest := some (render_code p),
            fetchInvoked := f.fetchInvoked, log := f.log ++ [LogEvent.renderException] }
      | HttpResp.response st body =>
          if st = 200 then
            { webp := some body, state := f.state, renderRequest := some (render_code p),
              fetchInvoked := f.fetchInvoked, log := f.log }
          else
            { webp := none, state := f.state, renderRequest := some (render_code p),
              fetchInvoked := f.fetchInvoked,
              log := f.log ++ [LogEvent.renderBadStatus st] }

/-- Result of push_to_tidbyt: the boolean return value, the tracker state
afterwards, the render request body when one was posted, the push request
when one was posted, whether the price fetch hit the network, and the
accumulated prints. -/
structure PushResult where
  success : Bool
  state : TrackerState
  renderRequest : Option String
  pushRequest : Option PushRequest
  fetchInvoked : Bool
  log : List LogEvent
deriving DecidableEq, Repr

/-- push_to_tidbyt (src/main.py lines 106-145): obtain WebP bytes via
create_webp; the guard is the falsiness test if not webp_data, so both
None and an empty bytes object return False without any push request
(matched here by the wildcard covering none and some []). Otherwise the
bytes are base64-encoded into the JSON body and POSTed with the bearer
header; status 200 prints success and returns True, any other status
prints the status and the response text and returns False, an exception
prints and returns False. -/
def push_to_tidbyt (device_id api_key : String) (s : TrackerState) (now : ℚ)
    (fresp : HttpResp (Option ℚ)) (rresp : HttpResp (List ℕ))
    (presp : HttpResp String) : PushResult :=
  let r := create_webp s now fresp rresp
  match r.webp with
  | some (b :: bs) =>
      let req := buildPushRequest device_id api_key (b :: bs)
      match presp with
      | HttpResp.networkError =>
          { success := false, state := r.state, renderRequest := r.renderRequest,
            pushRequest := some req, fetchInvoked := r.fetchInvoked,
            log := r.log ++ [LogEvent.pushException] }
      | HttpResp.response st body =>
          if st = 200 then
            { success := true, state := r.state, renderRequest := r.renderRequest,
              pushRequest := some req, fetchInvoked := r.fetchInvoked,
              log := r.log ++ [LogEvent.pushSuccess] }
          else
            { success := false, state := r.state, renderRequest := r.renderRequest,
              pushRequest := some req, fetchInvoked := r.fetchInvoked,
              log := r.log ++ [LogEvent.pushBadStatus st body] }
  | _ =>
      { success := false, state := r.state, renderRequest := r.renderRequest,
        pushRequest := none, fetchInvoked := r.fetchInvoked, log := r.log }

example : base64Encode [1, 2, 3] = "AQID" := by rfl

example : base64Encode [77, 97, 110] = "TWFu" := by rfl

example : base64Encode [77, 97] = "TWE=" := by rfl

example : base64Encode [77] = "TQ==" := by rfl

example : renderTextLabel 100 = "$100" := by rfl

/-- External inputs consumed by one call of push_to_tidbyt inside the
loop body: the wall-clock time and the three possible HTTP exchanges. -/
structure TickEnv where
  now : ℚ
  fetchResp : HttpResp (Option ℚ)
  renderResp : HttpResp (List ℕ)
  pushResp : HttpResp String
deriving DecidableEq, Repr

/-- What one pass through the body of the while True loop in
run_continuous_updates does, seen from the loop:
- completes: push_to_tidbyt returns a boolean normally (all fetch, render
  and push failures are swallowed inside it and become False);
- raisesUnexpected: an Exception escapes the body. The inner try blocks
  do not cover everything: for example, when a cached value that is not a
  number reaches the int() call of create_webp (line 84), or when any
  Exception is raised during time.sleep, it propagates to the
  try/except that encloses the whole while loop;
- interrupted: a KeyboardInterrupt arrives (KeyboardInterrupt is not an
  Exception subclass, so no inner except Exception handler catches it). -/
inductive TickEvent where
  | completes (env : TickEnv)
  | raisesUnexpected
  | interrupted
deriving DecidableEq, Repr

/-- Control status of run_continuous_updates: running inside the
while True loop, or one of the two ways of leaving it. Both except
branches sit outside the while loop (lines 155-164), so reaching either
one ends the loop. -/
inductive LoopStatus where
  | running
  | stoppedInterrupt
  | stoppedException
deriving DecidableEq, Repr

/-- One transition of run_continuous_updates (src/main.py lines 147-164):
while running, a body that completes keeps the loop running with the
state push_to_tidbyt left behind (whatever the returned boolean was, the
loop just prints and sleeps); an escaping Exception is printed by the
outer except Exception branch and the function returns; a
KeyboardInterrupt is printed by its branch and the function returns.
A stopped loop stays stopped. -/
def loopStep (device_id api_key : String) :
    LoopStatus × TrackerState → TickEvent → LoopStatus × TrackerState
  | (LoopStatus.running, s), TickEvent.completes env =>
      (LoopStatus.running,
        (push_to_tidbyt device_id api_key s env.now env.fetchResp env.renderResp
          env.pushResp).state)
  | (LoopStatus.running, s), TickEvent.raisesUnexpected => (LoopStatus.stoppedException, s)
  | (LoopStatus.running, s), TickEvent.interrupted => (LoopStatus.stoppedInterrupt, s)
  | (LoopStatus.stoppedInterrupt, s), _ => (LoopStatus.stoppedInterrupt, s)
  | (LoopStatus.stoppedException, s), _ => (LoopStatus.stoppedException, s)

/-- The loop run over a finite prefix of its (unbounded) event stream,
starting inside the while loop with the given tracker state. -/
def runLoop (device_id api_key : String) (init : TrackerState) (evs : List TickEvent) :
    LoopStatus × TrackerState :=
  evs.foldl (loopStep device_id api_key) (LoopStatus.running, init)

/-- What the loop prints during one completing iteration: everything the
body printed, followed by the failure notice when push_to_tidbyt
returned False (line 159). -/
def iterationLog (device_id api_key : String) (s : TrackerState) (env : TickEnv) :
    List LogEvent :=
  let r := push_to_tidbyt device_id api_key s env.now env.fetchResp env.renderResp
    env.pushResp
  r.log ++ (if r.success then [] else [LogEvent.willRetry])

/-- Outcome of loading tidbyt_config.json in main (src/main.py lines
166-178): the file may be missing (open raises FileNotFoundError), its
content may fail to parse (json.load raises json.JSONDecodeError, a
ValueError), or it parses to an object whose device_id and api_key
entries may each be present or absent. -/
inductive ConfigLoad where
  | missingFile
  | invalidJson
  | loaded (device_id : Option String) (api_key : Option String)
deriving DecidableEq, Repr

/-- How main terminates: printed a message and returned (one of the two
except branches), let an exception propagate out of main uncaught, or
constructed the tracker and entered run_continuous_updates with the two
credentials. -/
inductive MainResult where
  | aborted (msg : String)
  | unhandledException
  | runLoop (device_id api_key : String)
deriving DecidableEq, Repr

/-- main (src/main.py lines 166-182): a missing file prints the
create-a-config message and returns; a file that is not valid JSON
raises json.JSONDecodeError, which neither except FileNotFoundError nor
except KeyError matches, so it propagates uncaught; a parsed object
missing device_id or api_key raises KeyError at the subscript, printing
the must-contain message and returning; otherwise the tracker is built
and run_continuous_updates is entered. All HTTP requests of the program
(fetch, render, push) are issued only by methods called from
run_continuous_updates, hence only in the runLoop outcome. -/
def mainStartup : ConfigLoad → MainResult
  | ConfigLoad.missingFile =>
      MainResult.aborted
        "Please create a tidbyt_config.json file with your device_id and api_key"
  | ConfigLoad.invalidJson => MainResult.unhandledException
  | ConfigLoad.loaded none _ =>
      MainResult.aborted
        "Config file must contain \x27device_id\x27 and \x27api_key\x27 fields"
  | ConfigLoad.loaded (some _) none =>
      MainResult.aborted
        "Config file must contain \x27device_id\x27 and \x27api_key\x27 fields"
  | ConfigLoad.loaded (some d) (some k) => MainResult.runLoop d k

/-! Helper lemmas shared by several claims. -/

/-- The boolean cache test holds exactly when a price and a timestamp are
present and the elapsed time is strictly below the TTL. -/
theorem cacheValid_true_iff (s : TrackerState) (now : ℚ) :
    cacheValid s now = true ↔
      ∃ p t, s.last_price = some p ∧ s.last_update = some t ∧ now - t < cache_ttl := by
  cases hp : s.last_price with
  | none => simp [cacheValid, hp]
  | some p =>
    cases ht : s.last_update with
    | none => simp [cacheValid, hp, ht]
    | some t => simp [cacheValid, hp, ht]

/-- The boolean cache test fails when the sample is absent or the elapsed
time is at or past the TTL. -/
theorem cacheValid_false_of (s : TrackerState) (now : ℚ)
    (h : s.last_price = none ∨ s.last_update = none ∨
      ∃ t, s.last_update = some t ∧ cache_ttl ≤ now - t) :
    cacheValid s now = false := by
  rcases h with h | h | ⟨t, ht, htt⟩
  · simp [cacheValid, h]
  · simp [cacheValid, h]
  · simp [cacheValid, ht, not_lt.mpr htt]

/-- Whenever the cache test fails, get_bitcoin_price issues the HTTP GET. -/
theorem fetchInvoked_of_cacheInvalid (s : TrackerState) (now : ℚ)
    (resp : HttpResp (Option ℚ)) (h : cacheValid s now = false) :
    (get_bitcoin_price s now resp).fetchInvoked = true := by
  cases resp with
  | networkError => simp [get_bitcoin_price, h]
  | response st b =>
    by_cases hst : st = 200
    · cases b <;> simp [get_bitcoin_price, h, hst]
    · simp [get_bitcoin_price, h, hst]

/-- A call of get_bitcoin_price that produces no price leaves the state
untouched. -/
theorem get_price_state_of_none (s : TrackerState) (now : ℚ)
    (resp : HttpResp (Option ℚ))
    (h : (get_bitcoin_price s now resp).price = none) :
    (get_bitcoin_price s now resp).state = s := by
  by_cases hc : cacheValid s now = true
  · simp [get_bitcoin_price, hc]
  · rw [Bool.not_eq_true] at hc
    cases resp with
    | networkError => simp [get_bitcoin_price, hc]
    | response st b =>
      by_cases hst : st = 200
      · cases b with
        | none => simp [get_bitcoin_price, hc, hst]
        | some p => simp [get_bitcoin_price, hc, hst] at h
      · simp [get_bitcoin_price, hc, hst]

/-- create_webp only forwards the state computed by get_bitcoin_price. -/
theorem create_webp_state (s : TrackerState) (now : ℚ) (fresp : HttpResp (Option ℚ))
    (rresp : HttpResp (List ℕ)) :
    (create_webp s now fresp rresp).state = (get_bitcoin_price s now fresp).state := by
  unfold create_webp
  cases hp : (get_bitcoin_price s now fresp).price with
  | none => simp [hp]
  | some p =>
    cases rresp with
    | networkError => simp [hp]
    | response st body => by_cases hst : st = 200 <;> simp [hp, hst]

/-- push_to_tidbyt only forwards the state computed by create_webp. -/
theorem push_to_tidbyt_state (device_id api_key : String) (s : TrackerState) (now : ℚ)
    (fresp : HttpResp (Option ℚ)) (rresp : HttpResp (List ℕ)) (presp : HttpResp String) :
    (push_to_tidbyt device_id api_key s now fresp rresp presp).state =
      (create_webp s now fresp rresp).state := by
  unfold push_to_tidbyt
  cases hw : (create_webp s now fresp rresp).webp with
  | none => simp [hw]
  | some l =>
    cases l with
    | nil => simp [hw]
    | cons b bs =>
      cases presp with
      | networkError => simp [hw]
      | response st body => by_cases hst : st = 200 <;> simp [hw, hst]

/-- C2: for every cache read, a present sample strictly younger than the
4-minute TTL is returned as is and the CoinDesk fetch is not invoked,
while an absent sample or one at or past the TTL triggers a fresh
fetch. -/
theorem claim_C2_cache_ttl (s : TrackerState) (now : ℚ) (resp : HttpResp (Option ℚ)) :
    ((∃ p t, s.last_price = some p ∧ s.last_update = some t ∧ now - t < cache_ttl) →
      (get_bitcoin_price s now resp).price = s.last_price ∧
        (get_bitcoin_price s now resp).fetchInvoked = false) ∧
    ((s.last_price = none ∨ s.last_update = none ∨
        (∃ t, s.last_update = some t ∧ cache_ttl ≤ now - t)) →
      (get_bitcoin_price s now resp).fetchInvoked = true) := by
  constructor
  · intro h
    have hc : cacheValid s now = true := (cacheValid_true_iff s now).mpr h
    simp [get_bitcoin_price, hc]
  · intro h
    exact fetchInvoked_of_cacheInvalid s now resp (cacheValid_false_of s now h)

/-- Witness for C2: with a price cached 100 seconds ago the cached value
comes back with no fetch; at exactly 240 seconds the fetch is issued. -/
theorem claim_C2_cache_ttl_witness :
    ((get_bitcoin_price { last_price := some 5, last_update := some 0 } 100
        HttpResp.networkError).price = some 5 ∧
      (get_bitcoin_price { last_price := some 5, last_update := some 0 } 100
        HttpResp.networkError).fetchInvoked = false) ∧
    (get_bitcoin_price { last_price := some 5, last_update := some 0 } 240
        HttpResp.networkError).fetchInvoked = true := by
  constructor
  · exact (claim_C2_cache_ttl { last_price := some 5, last_update := some 0 } 100
      HttpResp.networkError).1 ⟨5, 0, rfl, rfl, by norm_num [cache_ttl]⟩
  · exact (claim_C2_cache_ttl { last_price := some 5, last_update := some 0 } 240
      HttpResp.networkError).2 (Or.inr (Or.inr ⟨0, rfl, by norm_num [cache_ttl]⟩))

/-- C4: the cached sample is mutated only by a successful fetch: a fetch
producing no price (non-200 status such as 503, network or parse
exception) leaves last_price and last_update unchanged, and the render
and push stages forward the state of the fetch stage unchanged. -/
theorem claim_C4_cache_mutation (device_id api_key : String) (s : TrackerState)
    (now : ℚ) (fresp : HttpResp (Option ℚ)) (rresp : HttpResp (List ℕ))
    (presp : HttpResp String) :
    ((get_bitcoin_price s now fresp).price = none →
      (get_bitcoin_price s now fresp).state = s) ∧
    (∀ st b, st ≠ 200 →
      (get_bitcoin_price s now (HttpResp.response st b)).state = s) ∧
    (get_bitcoin_price s now HttpResp.networkError).state = s ∧
    (get_bitcoin_price s now (HttpResp.response 200 none)).state = s ∧
    (create_webp s now fresp rresp).state = (get_bitcoin_price s now fresp).state ∧
    (push_to_tidbyt device_id api_key s now fresp rresp presp).state =
      (get_bitcoin_price s now fresp).state := by
  refine ⟨get_price_state_of_none s now fresp, ?_, ?_, ?_, create_webp_state s now fresp rresp, ?_⟩
  · intro st b hst
    by_cases hc : cacheValid s now = true
    · simp [get_bitcoin_price, hc]
    · rw [Bool.not_eq_true] at hc
      simp [get_bitcoin_price, hc, hst]
  · by_cases hc : cacheValid s now = true
    · simp [get_bitcoin_price, hc]
    · rw [Bool.not_eq_true] at hc
      simp [get_bitcoin_price, hc]
  · by_cases hc : cacheValid s now = true
    · simp [get_bitcoin_price, hc]
    · rw [Bool.not_eq_true] at hc
      simp [get_bitcoin_price, hc]
  · rw [push_to_tidbyt_state, create_webp_state]

/-- Witness for C4: a 503 response against the empty cache leaves the
state untouched, and so do the render and push stages. -/
theorem claim_C4_cache_mutation_witness :
    (get_bitcoin_price initState 0 (HttpResp.response 503 none)).state = initState ∧
    (push_to_tidbyt "device" "key" initState 0 (HttpResp.response 503 none)
      HttpResp.networkError HttpResp.networkError).state =
      (get_bitcoin_price initState 0 (HttpResp.response 503 none)).state := by
  constructor
  · exact (claim_C4_cache_mutation "device" "key" initState 0
      (HttpResp.response 503 none) HttpResp.networkError HttpResp.networkError).2.1
      503 none (by norm_num)
  · exact (claim_C4_cache_mutation "device" "key" initState 0
      (HttpResp.response 503 none) HttpResp.networkError HttpResp.networkError).2.2.2.2.2

/-- A failed price fetch makes create_webp return None without posting
anything to the render endpoint. -/
theorem create_webp_of_fetch_none (s : TrackerState) (now : ℚ)
    (fresp : HttpResp (Option ℚ)) (rresp : HttpResp (List ℕ))
    (h : (get_bitcoin_price s now fresp).price = none) :
    (create_webp s now fresp rresp).webp = none ∧
    (create_webp s now fresp rresp).renderRequest = none ∧
    (create_webp s now fresp rresp).log = (get_bitcoin_price s now fresp).log := by
  refine ⟨?_, ?_, ?_⟩ <;> simp [create_webp, h]

/-- A falsy webp value (None or empty bytes) makes push_to_tidbyt return
False without assembling a push request. -/
theorem push_no_request_of_falsy (device_id api_key : String) (s : TrackerState)
    (now : ℚ) (fresp : HttpResp (Option ℚ)) (rresp : HttpResp (List ℕ))
    (presp : HttpResp String)
    (h : (create_webp s now fresp rresp).webp = none ∨
      (create_webp s now fresp rresp).webp = some []) :
    (push_to_tidbyt device_id api_key s now fresp rresp presp).pushRequest = none ∧
    (push_to_tidbyt device_id api_key s now fresp rresp presp).success = false ∧
    (push_to_tidbyt device_id api_key s now fresp rresp presp).renderRequest =
      (create_webp s now fresp rresp).renderRequest ∧
    (push_to_tidbyt device_id api_key s now fresp rresp presp).log =
      (create_webp s now fresp rresp).log := by
  rcases h with h | h <;> exact ⟨by simp [push_to_tidbyt, h], by simp [push_to_tidbyt, h],
    by simp [push_to_tidbyt, h], by simp [push_to_tidbyt, h]⟩

/-- Over any finite prefix of events in which every iteration body
completes normally, the loop never leaves the running status. -/
theorem runLoop_running_of_completes (device_id api_key : String) :
    ∀ (evs : List TickEvent) (p : LoopStatus × TrackerState),
      p.1 = LoopStatus.running →
      (∀ e ∈ evs, ∃ env, e = TickEvent.completes env) →
      (evs.foldl (loopStep device_id api_key) p).1 = LoopStatus.running := by
  intro evs
  induction evs with
  | nil =>
    intro p hp _
    simpa using hp
  | cons e rest ih =>
    intro p hp hall
    obtain ⟨env, rfl⟩ := hall e (List.mem_cons_self e rest)
    obtain ⟨st, s⟩ := p
    simp only at hp
    subst hp
    simp only [List.foldl_cons]
    exact ih _ rfl fun e2 he2 => hall e2 (List.mem_cons_of_mem _ he2)

/-- C1 counterexample: an unexpected exception raised inside an iteration
is not swallowed by any per-iteration boundary: the try/except of
run_continuous_updates encloses the whole while loop, so the transition
leaves the running status and enters stoppedException, a terminal status
from which a later completing tick changes nothing, even though no
external interrupt was received. The boolean comparisons record that
stoppedException is neither the running status (the loop did not proceed
to the next sleep/retry cycle) nor the interrupt-induced stop. -/
theorem claim_C1_counterexample :
    loopStep "device" "key" (LoopStatus.running, initState) TickEvent.raisesUnexpected =
      (LoopStatus.stoppedException, initState) ∧
    (LoopStatus.stoppedException == LoopStatus.running) = false ∧
    (LoopStatus.stoppedException == LoopStatus.stoppedInterrupt) = false ∧
    loopStep "device" "key" (LoopStatus.stoppedException, initState)
      (TickEvent.completes (TickEnv.mk 0 HttpResp.networkError HttpResp.networkError HttpResp.networkError)) =
      (LoopStatus.stoppedException, initState) :=
  ⟨rfl, rfl, rfl, rfl⟩

/-- C1 amended: every iteration whose body completes normally (all fetch,
render and push failures are swallowed inside push_to_tidbyt and become a
False return) is logged and swallowed and the loop proceeds to the next
sleep/retry cycle, and the loop stays running over any such event
sequence; but the loop leaves the running status in exactly two ways: a
KeyboardInterrupt gives the clean stoppedInterrupt exit, and an
unexpected exception escaping an iteration is printed by the outer
except branch and ends the loop in stoppedException. -/
theorem claim_C1_amended_loop (device_id api_key : String) (s init : TrackerState)
    (env : TickEnv) (evs : List TickEvent)
    (hall : ∀ e ∈ evs, ∃ env2, e = TickEvent.completes env2) :
    (loopStep device_id api_key (LoopStatus.running, s) (TickEvent.completes env)).1 =
      LoopStatus.running ∧
    loopStep device_id api_key (LoopStatus.running, s) TickEvent.raisesUnexpected =
      (LoopStatus.stoppedException, s) ∧
    loopStep device_id api_key (LoopStatus.running, s) TickEvent.interrupted =
      (LoopStatus.stoppedInterrupt, s) ∧
    (runLoop device_id api_key init evs).1 = LoopStatus.running :=
  ⟨rfl, rfl, rfl, runLoop_running_of_completes device_id api_key evs _ rfl hall⟩

/-- Witness for the amended C1 at a concrete one-element event list whose
single iteration fails its fetch and completes. -/
theorem claim_C1_amended_loop_witness :
    (loopStep "device" "key" (LoopStatus.running, initState)
      (TickEvent.completes (TickEnv.mk 0 HttpResp.networkError HttpResp.networkError HttpResp.networkError))).1 =
      LoopStatus.running ∧
    loopStep "device" "key" (LoopStatus.running, initState) TickEvent.raisesUnexpected =
      (LoopStatus.stoppedException, initState) ∧
    loopStep "device" "key" (LoopStatus.running, initState) TickEvent.interrupted =
      (LoopStatus.stoppedInterrupt, initState) ∧
    (runLoop "device" "key" initState
      [TickEvent.completes (TickEnv.mk 0 HttpResp.networkError HttpResp.networkError HttpResp.networkError)]).1 =
      LoopStatus.running :=
  claim_C1_amended_loop "device" "key" initState initState
    (TickEnv.mk 0 HttpResp.networkError HttpResp.networkError HttpResp.networkError)
    [TickEvent.completes (TickEnv.mk 0 HttpResp.networkError HttpResp.networkError HttpResp.networkError)]
    (by
      intro e he
      simp only [List.mem_singleton] at he
      exact ⟨_, he⟩)

/-- C3 counterexample: the f-string fragment render.Text("${int(price)}")
contains a literal dollar sign before the interpolated integer, so the
label rendered for 42999.9 is the string built from a dollar sign and
42999, which the boolean comparison shows differs from the bare "42999"
the claim states; the 100.0 case differs likewise. -/
theorem claim_C3_counterexample :
    renderTextLabel ((429999 : ℚ) / 10) = "$42999" ∧
    (renderTextLabel ((429999 : ℚ) / 10) == "42999") = false ∧
    renderTextLabel (100 : ℚ) = "$100" ∧
    (renderTextLabel (100 : ℚ) == "100") = false := by
  have h : pyInt ((429999 : ℚ) / 10) = 42999 := by norm_num [pyInt]
  have hl : renderTextLabel ((429999 : ℚ) / 10) = "$42999" := by
    simp only [renderTextLabel, h]
    rfl
  exact ⟨hl, by rw [hl]; rfl, rfl, rfl⟩

/-- C3 amended: the text label placed in the render payload is a dollar
sign followed by the decimal spelling of int(price), where int truncates
(for the nonnegative prices at issue, the floor): render(42999.9) yields
the label "$42999" (and not the rounded "$43000"), render(100.0) yields
"$100", and whenever the fetch stage produced a price the posted render
payload is exactly the template around that label. -/
theorem claim_C3_amended (s : TrackerState) (now : ℚ) (fresp : HttpResp (Option ℚ))
    (rresp : HttpResp (List ℕ)) (p : ℚ)
    (hp : (get_bitcoin_price s now fresp).price = some p) :
    (create_webp s now fresp rresp).renderRequest =
      some (renderCodeBeforeLabel ++ renderTextLabel p ++ renderCodeAfterLabel) ∧
    (0 ≤ p → renderTextLabel p = "$" ++ toString ⌊p⌋) ∧
    renderTextLabel ((429999 : ℚ) / 10) = "$42999" ∧
    (renderTextLabel ((429999 : ℚ) / 10) == "$43000") = false ∧
    renderTextLabel (100 : ℚ) = "$100" := by
  have h : pyInt ((429999 : ℚ) / 10) = 42999 := by norm_num [pyInt]
  have hl : renderTextLabel ((429999 : ℚ) / 10) = "$42999" := by
    simp only [renderTextLabel, h]
    rfl
  refine ⟨?_, ?_, hl, by rw [hl]; rfl, rfl⟩
  · cases rresp with
    | networkError => simp [create_webp, hp, render_code]
    | response st body => by_cases hst : st = 200 <;> simp [create_webp, hp, hst, render_code]
  · intro hpos
    simp [renderTextLabel, pyInt, hpos]

/-- Witness for the amended C3: a fresh fetch of 42999.9 produces a
render request embedding the label for 42999.9. -/
theorem claim_C3_amended_witness :
    (get_bitcoin_price initState 0
      (HttpResp.response 200 (some ((429999 : ℚ) / 10)))).price =
        some ((429999 : ℚ) / 10) ∧
    (create_webp initState 0 (HttpResp.response 200 (some ((429999 : ℚ) / 10)))
      (HttpResp.response 200 [1])).renderRequest =
        some (renderCodeBeforeLabel ++ renderTextLabel ((429999 : ℚ) / 10) ++
          renderCodeAfterLabel) := by
  have hp : (get_bitcoin_price initState 0
      (HttpResp.response 200 (some ((429999 : ℚ) / 10)))).price =
        some ((429999 : ℚ) / 10) := rfl
  exact ⟨hp, (claim_C3_amended initState 0
    (HttpResp.response 200 (some ((429999 : ℚ) / 10)))
    (HttpResp.response 200 [1]) ((429999 : ℚ) / 10) hp).1⟩

/-- C5: whenever create_webp produced (nonempty) image bytes, the push
request carries exactly the base64 encoding of those bytes in the image
field, installation_id bitcoin-tracker, background true, and the bearer
authorization header; the call returns True exactly when the response
status is 200, and on any other status the status code and the response
body are printed. -/
theorem claim_C5_push (device_id api_key : String) (s : TrackerState) (now : ℚ)
    (fresp : HttpResp (Option ℚ)) (rresp : HttpResp (List ℕ)) (presp : HttpResp String)
    (b : ℕ) (bs : List ℕ)
    (hw : (create_webp s now fresp rresp).webp = some (b :: bs)) :
    (push_to_tidbyt device_id api_key s now fresp rresp presp).pushRequest =
      some (buildPushRequest device_id api_key (b :: bs)) ∧
    (buildPushRequest device_id api_key (b :: bs)).image = base64Encode (b :: bs) ∧
    (buildPushRequest device_id api_key (b :: bs)).installation_id = "bitcoin-tracker" ∧
    (buildPushRequest device_id api_key (b :: bs)).background = true ∧
    (buildPushRequest device_id api_key (b :: bs)).authHeader = "Bearer " ++ api_key ∧
    ((push_to_tidbyt device_id api_key s now fresp rresp presp).success = true ↔
      (∃ body, presp = HttpResp.response 200 body)) ∧
    (∀ st body, presp = HttpResp.response st body → st ≠ 200 →
      LogEvent.pushBadStatus st body ∈
        (push_to_tidbyt device_id api_key s now fresp rresp presp).log) := by
  refine ⟨?_, rfl, rfl, rfl, rfl, ?_, ?_⟩
  · cases presp with
    | networkError => simp [push_to_tidbyt, hw]
    | response st body => by_cases hst : st = 200 <;> simp [push_to_tidbyt, hw, hst]
  · cases presp with
    | networkError => simp [push_to_tidbyt, hw]
    | response st body =>
      by_cases hst : st = 200
      · subst hst
        simp [push_to_tidbyt, hw]
      · simp [push_to_tidbyt, hw, hst]
  · intro st body heq hst
    subst heq
    simp [push_to_tidbyt, hw, hst]

/-- Witness for C5: fetch 67890, render bytes 1 2 3, push refused with a
403: the push request carries base64 AQID of the bytes, and the 403 and
its body are printed while the call reports failure. -/
theorem claim_C5_push_witness :
    (create_webp initState 0 (HttpResp.response 200 (some 67890))
      (HttpResp.response 200 [1, 2, 3])).webp = some [1, 2, 3] ∧
    (push_to_tidbyt "device" "key" initState 0 (HttpResp.response 200 (some 67890))
      (HttpResp.response 200 [1, 2, 3]) (HttpResp.response 403 "Forbidden")).pushRequest =
        some (buildPushRequest "device" "key" [1, 2, 3]) ∧
    (buildPushRequest "device" "key" [1, 2, 3]).image = "AQID" ∧
    LogEvent.pushBadStatus 403 "Forbidden" ∈
      (push_to_tidbyt "device" "key" initState 0 (HttpResp.response 200 (some 67890))
        (HttpResp.response 200 [1, 2, 3]) (HttpResp.response 403 "Forbidden")).log := by
  have hw : (create_webp initState 0 (HttpResp.response 200 (some 67890))
      (HttpResp.response 200 [1, 2, 3])).webp = some [1, 2, 3] := rfl
  have h := claim_C5_push "device" "key" initState 0 (HttpResp.response 200 (some 67890))
    (HttpResp.response 200 [1, 2, 3]) (HttpResp.response 403 "Forbidden") 1 [2, 3] hw
  exact ⟨hw, h.1, by rw [h.2.1]; rfl, h.2.2.2.2.2.2 403 "Forbidden" rfl (by norm_num)⟩

/-- C6: an iteration whose price fetch produces no price is aborted: no
render request and no push request are issued, push_to_tidbyt returns
False, the failure notice is printed by the loop, and the loop proceeds
(stays running) into its sleep. -/
theorem claim_C6_fetch_failure_aborts (device_id api_key : String) (s : TrackerState)
    (env : TickEnv)
    (hfail : (get_bitcoin_price s env.now env.fetchResp).price = none) :
    (push_to_tidbyt device_id api_key s env.now env.fetchResp env.renderResp
      env.pushResp).renderRequest = none ∧
    (push_to_tidbyt device_id api_key s env.now env.fetchResp env.renderResp
      env.pushResp).pushRequest = none ∧
    (push_to_tidbyt device_id api_key s env.now env.fetchResp env.renderResp
      env.pushResp).success = false ∧
    LogEvent.willRetry ∈ iterationLog device_id api_key s env ∧
    (loopStep device_id api_key (LoopStatus.running, s) (TickEvent.completes env)).1 =
      LoopStatus.running := by
  have hc := create_webp_of_fetch_none s env.now env.fetchResp env.renderResp hfail
  have hp := push_no_request_of_falsy device_id api_key s env.now env.fetchResp
    env.renderResp env.pushResp (Or.inl hc.1)
  refine ⟨?_, hp.1, hp.2.1, ?_, rfl⟩
  · rw [hp.2.2.1, hc.2.1]
  · simp [iterationLog, hp.2.1]

/-- Witness for C6: a 503 on the fetch against the empty cache issues no
render or push request, fails, prints the retry notice and the loop
stays running. -/
theorem claim_C6_fetch_failure_aborts_witness :
    (get_bitcoin_price initState 0 (HttpResp.response 503 none)).price = none ∧
    (push_to_tidbyt "device" "key" initState 0 (HttpResp.response 503 none)
      HttpResp.networkError HttpResp.networkError).renderRequest = none ∧
    (push_to_tidbyt "device" "key" initState 0 (HttpResp.response 503 none)
      HttpResp.networkError HttpResp.networkError).pushRequest = none ∧
    (push_to_tidbyt "device" "key" initState 0 (HttpResp.response 503 none)
      HttpResp.networkError HttpResp.networkError).success = false ∧
    LogEvent.willRetry ∈ iterationLog "device" "key" initState
      (TickEnv.mk 0 (HttpResp.response 503 none) HttpResp.networkError
        HttpResp.networkError) := by
  have hfail : (get_bitcoin_price initState 0 (HttpResp.response 503 none)).price =
      none := rfl
  have h := claim_C6_fetch_failure_aborts "device" "key" initState
    (TickEnv.mk 0 (HttpResp.response 503 none) HttpResp.networkError
      HttpResp.networkError) hfail
  exact ⟨hfail, h.1, h.2.1, h.2.2.1, h.2.2.2.1⟩

/-- C7: startup with a missing config file, or with a parsed config
object lacking device_id or api_key, prints a descriptive message and
returns: the outcome is aborted and never runLoop, and every fetch,
render or push request of the program is issued only by methods invoked
from run_continuous_updates, i.e. only in the runLoop outcome, so no
network call is made. -/
theorem claim_C7_startup_abort (cfg : ConfigLoad)
    (h : cfg = ConfigLoad.missingFile ∨
      ∃ d k, cfg = ConfigLoad.loaded d k ∧ (d = none ∨ k = none)) :
    (∃ msg, mainStartup cfg = MainResult.aborted msg) ∧
    ∀ d2 k2, mainStartup cfg ≠ MainResult.runLoop d2 k2 := by
  rcases h with rfl | ⟨d, k, rfl, hdk⟩
  · exact ⟨⟨_, rfl⟩, fun d2 k2 => by simp [mainStartup]⟩
  · rcases hdk with rfl | rfl
    · exact ⟨⟨_, rfl⟩, fun d2 k2 => by simp [mainStartup]⟩
    · cases d with
      | none => exact ⟨⟨_, rfl⟩, fun d2 k2 => by simp [mainStartup]⟩
      | some dv => exact ⟨⟨_, rfl⟩, fun d2 k2 => by simp [mainStartup]⟩

/-- Witness for C7 at the two concrete failing configurations: a missing
file, and a parsed object with device_id present but api_key absent. -/
theorem claim_C7_startup_abort_witness :
    (∃ msg, mainStartup ConfigLoad.missingFile = MainResult.aborted msg) ∧
    (∃ msg, mainStartup (ConfigLoad.loaded (some "device") none) =
      MainResult.aborted msg) :=
  ⟨(claim_C7_startup_abort ConfigLoad.missingFile (Or.inl rfl)).1,
    (claim_C7_startup_abort (ConfigLoad.loaded (some "device") none)
      (Or.inr ⟨some "device", none, rfl, Or.inr rfl⟩)).1⟩

/-- C8 counterexample: get_bitcoin_price performs no positivity check on
the fetched value: a successful fetch whose bpi.USD.rate_float value is
-1 stores -1 in the cache, and -1 is not strictly positive (it is at
most 0), falsifying the invariant for this API value. -/
theorem claim_C8_counterexample :
    (get_bitcoin_price initState 0
      (HttpResp.response 200 (some (-1)))).state.last_price = some (-1) ∧
    (-1 : ℚ) ≤ 0 := by
  constructor
  · rfl
  · norm_num

/-- The spec invariant on the cached sample: when a price is present it
is strictly positive. -/
def priceInvariant (s : TrackerState) : Prop :=
  ∀ p, s.last_price = some p → 0 < p

/-- C8 amended: the code stores whatever numeric value a successful fetch
returns, with no validation, so strict positivity of the cached value is
an invariant only under the assumption that every value the price API
hands over is itself positive; under that assumption the fetch, render
and push stages all preserve it. -/
theorem claim_C8_amended_invariant (device_id api_key : String) (s : TrackerState)
    (now : ℚ) (fresp : HttpResp (Option ℚ)) (rresp : HttpResp (List ℕ))
    (presp : HttpResp String)
    (hinv : priceInvariant s)
    (hpos : ∀ st q, fresp = HttpResp.response st (some q) → 0 < q) :
    priceInvariant (get_bitcoin_price s now fresp).state ∧
    priceInvariant (create_webp s now fresp rresp).state ∧
    priceInvariant (push_to_tidbyt device_id api_key s now fresp rresp presp).state := by
  have hg : priceInvariant (get_bitcoin_price s now fresp).state := by
    by_cases hc : cacheValid s now = true
    · simpa [get_bitcoin_price, hc] using hinv
    · rw [Bool.not_eq_true] at hc
      cases fresp with
      | networkError => simpa [get_bitcoin_price, hc] using hinv
      | response st b =>
        by_cases hst : st = 200
        · subst hst
          cases b with
          | none => simpa [get_bitcoin_price, hc] using hinv
          | some q =>
            have hq : 0 < q := hpos 200 q rfl
            intro p hp2
            simp only [get_bitcoin_price, hc, Bool.false_eq_true, if_false,
              if_pos rfl] at hp2
            simp at hp2
            subst hp2
            exact hq
        · simpa [get_bitcoin_price, hc, hst] using hinv
  refine ⟨hg, ?_, ?_⟩
  · rw [create_webp_state]
    exact hg
  · rw [push_to_tidbyt_state, create_webp_state]
    exact hg

/-- Witness for the amended C8: a fresh fetch of the positive value 67890
into the empty cache leaves a cached value that is positive. -/
theorem claim_C8_amended_invariant_witness :
    (get_bitcoin_price initState 0
      (HttpResp.response 200 (some 67890))).state.last_price = some 67890 ∧
    (0 : ℚ) < 67890 := by
  have h := claim_C8_amended_invariant "device" "key" initState 0
    (HttpResp.response 200 (some 67890)) HttpResp.networkError HttpResp.networkError
    (fun p hp => absurd hp (by simp [initState]))
    (fun st q h2 => by
      cases h2
      norm_num)
  exact ⟨rfl, h.1 67890 rfl⟩

/-- C9: a render endpoint response with status 200 and an empty body
makes create_webp return the empty bytes value (some empty, not the None
failure marker), yet the falsiness guard if not webp_data rejects it:
push_to_tidbyt returns False without assembling any push request. -/
theorem claim_C9_empty_render_body (device_id api_key : String) (s : TrackerState)
    (now : ℚ) (fresp : HttpResp (Option ℚ)) (presp : HttpResp String) (p : ℚ)
    (hp : (get_bitcoin_price s now fresp).price = some p) :
    (create_webp s now fresp (HttpResp.response 200 [])).webp = some [] ∧
    (push_to_tidbyt device_id api_key s now fresp (HttpResp.response 200 [])
      presp).success = false ∧
    (push_to_tidbyt device_id api_key s now fresp (HttpResp.response 200 [])
      presp).pushRequest = none := by
  have hw : (create_webp s now fresp (HttpResp.response 200 [])).webp = some [] := by
    simp [create_webp, hp]
  have h2 := push_no_request_of_falsy device_id api_key s now fresp
    (HttpResp.response 200 []) presp (Or.inr hw)
  exact ⟨hw, h2.2.1, h2.1⟩

/-- Witness for C9: fetch 67890, render replies 200 with an empty body,
and the push stage reports failure with no push request assembled. -/
theorem claim_C9_empty_render_body_witness :
    (get_bitcoin_price initState 0
      (HttpResp.response 200 (some 67890))).price = some 67890 ∧
    (create_webp initState 0 (HttpResp.response 200 (some 67890))
      (HttpResp.response 200 [])).webp = some [] ∧
    (push_to_tidbyt "device" "key" initState 0 (HttpResp.response 200 (some 67890))
      (HttpResp.response 200 []) HttpResp.networkError).success = false ∧
    (push_to_tidbyt "device" "key" initState 0 (HttpResp.response 200 (some 67890))
      (HttpResp.response 200 []) HttpResp.networkError).pushRequest = none := by
  have hp : (get_bitcoin_price initState 0
      (HttpResp.response 200 (some 67890))).price = some 67890 := rfl
  have h := claim_C9_empty_render_body "device" "key" initState 0
    (HttpResp.response 200 (some 67890)) HttpResp.networkError 67890 hp
  exact ⟨hp, h.1, h.2.1, h.2.2⟩

/-- C10: a config file that exists but whose content is not valid JSON
makes json.load raise json.JSONDecodeError, which neither the
FileNotFoundError handler nor the KeyError handler matches: main does
not print a descriptive message and return, the exception propagates
uncaught out of main. -/
theorem claim_C10_invalid_json_unhandled :
    mainStartup ConfigLoad.invalidJson = MainResult.unhandledException := rfl

end Tidbyt
